import Mathlib

/-!
Verification development for the Brain-Time/productivity-coach repository.

Shallow embedding of the core modules:
* `ai_config.py`  — feature catalog and configuration resolution,
* `onboarding.py` — AI-assisted profile generation with deterministic fallback,
* `database.py`   — persistence store for profiles, daily plans and reviews.

Python dictionaries are modelled as ordered association lists of string keys
to `Value` (a model of Python/JSON scalars and containers).  Python floats
that appear only as configuration literals are modelled as exact rationals.
Wall-clock timestamps (`datetime.now().isoformat()`) are modelled as abstract
clock values passed in explicitly; the string ordering used by SQLite
`ORDER BY created_at` is modelled by the numeric order of those clock values.
A Python function that can raise an uncaught exception is modelled as
returning `Except String _` with the error message standing for the raised
exception.
-/

/-- Model of a Python/JSON value (scalars, lists and dicts). -/
inductive Value where
  | null
  | bool (b : Bool)
  | int (n : Int)
  | rat (q : Rat)
  | str (s : String)
  | list (xs : List Value)
  | dict (kvs : List (String × Value))
deriving Repr

/-- A Python dict with string keys, in insertion order. -/
abbrev PyDict := List (String × Value)

/-- Association-list lookup: `d.get(k)` / `k in d` / `d[k]` on a Python dict. -/
def assocGet {α : Type} (kvs : List (String × α)) (k : String) : Option α :=
  match kvs with
  | [] => none
  | (k₂, v) :: rest => if k₂ = k then some v else assocGet rest k

/-- Python dict item assignment `d[k] = v`: overwrite in place, else append. -/
def setKey (kvs : PyDict) (k : String) (v : Value) : PyDict :=
  match kvs with
  | [] => [(k, v)]
  | (k₂, v₂) :: rest => if k₂ = k then (k, v) :: rest else (k₂, v₂) :: setKey rest k v

/-- A single-quote character, built by code point to keep the file plain ASCII. -/
def pySQuote : String := String.mk [Char.ofNat 39]

mutual
/-- Model of Python `repr` on a value (used by `str` on containers). -/
def pyRepr : Value → String
  | .null => "None"
  | .bool b => if b then "True" else "False"
  | .int n => toString n
  | .rat q => toString q
  | .str s => pySQuote ++ s ++ pySQuote
  | .list xs => "[" ++ ", ".intercalate (pyReprList xs) ++ "]"
  | .dict kvs => "\x7b" ++ ", ".intercalate (pyReprKVs kvs) ++ "\x7d"

def pyReprList : List Value → List String
  | [] => []
  | x :: xs => pyRepr x :: pyReprList xs

def pyReprKVs : List (String × Value) → List String
  | [] => []
  | (k, v) :: rest => (pySQuote ++ k ++ pySQuote ++ ": " ++ pyRepr v) :: pyReprKVs rest
end

/-- Model of Python `str()` as used by f-string interpolation. -/
def pyStr : Value → String
  | .str s => s
  | v => pyRepr v

/-- Model of `", ".join(xs)`: succeeds on a list of strings, raises
`TypeError` on any non-string item. -/
def pyJoinComma : List Value → Except String String
  | [] => .ok ""
  | [.str s] => .ok s
  | .str s :: x :: rest =>
    match pyJoinComma (x :: rest) with
    | .ok t => .ok (s ++ ", " ++ t)
    | .error e => .error e
  | _ => .error "TypeError: sequence item: expected str instance"

/-- The expression `", ".join(goals) if isinstance(goals, list) else goals`
as interpolated into an f-string. -/
def goalsText : Value → Except String String
  | .list xs => pyJoinComma xs
  | v => .ok (pyStr v)

/-! ## `ai_config.py` -/

/-- `MODELS` table (`ai_config.py`). -/
def MODELS : List (String × String) :=
  [("daily_planning", "llama-3.3-70b-versatile"),
   ("weekly_review", "llama-3.1-70b-versatile"),
   ("quick_task", "llama-3.1-8b-instant"),
   ("motivational", "llama-3.1-8b-instant"),
   ("onboarding", "llama-3.3-70b-versatile")]

/-- `TEMPERATURES` table (`ai_config.py`). -/
def TEMPERATURES : List (String × Rat) :=
  [("daily_planning", 0.4),
   ("weekly_review", 0.8),
   ("quick_task", 0.5),
   ("motivational", 1.1),
   ("onboarding", 0.7)]

/-- `MAX_TOKENS` table (`ai_config.py`). -/
def MAX_TOKENS : List (String × Nat) :=
  [("daily_planning", 500),
   ("weekly_review", 600),
   ("quick_task", 150),
   ("motivational", 200),
   ("onboarding", 800)]

/-- `DEFAULT_SYSTEM_MESSAGES` table (`ai_config.py`). -/
def DEFAULT_SYSTEM_MESSAGES : List (String × String) :=
  [("daily_planning", "You are an Islamic productivity coach specializing in time management for busy individuals.\n\nYour responses should:\n- Create realistic, time-blocked schedules\n- Prioritize spiritual growth (Quran, prayer times)\n- Acknowledge real-world constraints\n- Be encouraging and practical\n- Format as a clear schedule with times"),
   ("weekly_review", "You are a reflective productivity coach analyzing weekly progress.\n\nYour responses should:\n- Start by celebrating wins (even small ones)\n- Identify patterns in productivity\n- Suggest 2-3 specific adjustments for next week\n- Be constructive and encouraging, never critical\n- Reference principles of continuous improvement"),
   ("quick_task", "You are a helpful productivity assistant for quick questions.\n\nKeep responses:\n- Brief (2-3 sentences maximum)\n- Immediately actionable\n- Positive and encouraging"),
   ("motivational", "You are an Islamic motivational speaker focused on productivity.\n\nProvide:\n- A relevant Quranic verse or Hadith (with translation)\n- Brief reflection on its meaning for productivity\n- One actionable reminder\n- Keep total response under 100 words")]

/-- One entry of the `LANGUAGES` table (`ai_config.py`). -/
structure LanguageEntry where
  name : String
  code : String
  ai_instruction : String
  direction : String
  ui_strings : List (String × String)
deriving Repr, Inhabited

/-- `LANGUAGES` table (`ai_config.py`). -/
def LANGUAGES : List (String × LanguageEntry) :=
  [("en", { name := "English", code := "en",
            ai_instruction := "Respond in English.", direction := "ltr",
            ui_strings := [("welcome", "Welcome to Your Productivity Coach"),
                           ("daily_plan", "Daily Plan"),
                           ("weekly_review", "Weekly Review"),
                           ("settings", "Settings"),
                           ("onboarding", "Let" ++ pySQuote ++ "s Get Started")] }),
   ("de", { name := "Deutsch", code := "de",
            ai_instruction := "Antworte auf Deutsch.", direction := "ltr",
            ui_strings := [("welcome", "Willkommen zu Deinem Produktivitäts-Coach"),
                           ("daily_plan", "Tagesplan"),
                           ("weekly_review", "Wochenrückblick"),
                           ("settings", "Einstellungen"),
                           ("onboarding", "Lass uns starten")] }),
   ("ar", { name := "العربية", code := "ar",
            ai_instruction := "Respond in Arabic (العربية). Use proper Arabic script.", direction := "rtl",
            ui_strings := [("welcome", "مرحبا بك في مدرب الإنتاجية"),
                           ("daily_plan", "الخطة اليومية"),
                           ("weekly_review", "المراجعة الأسبوعية"),
                           ("settings", "الإعدادات"),
                           ("onboarding", "لنبدأ")] }),
   ("fr", { name := "Français", code := "fr",
            ai_instruction := "Répondez en français.", direction := "ltr",
            ui_strings := [("welcome", "Bienvenue dans votre coach de productivité"),
                           ("daily_plan", "Plan quotidien"),
                           ("weekly_review", "Revue hebdomadaire"),
                           ("settings", "Paramètres"),
                           ("onboarding", "Commençons")] })]

/-- `get_model` (`ai_config.py`): `MODELS.get(feature, MODELS["quick_task"])`. -/
def get_model (feature : String) : String :=
  (assocGet MODELS feature).getD ((assocGet MODELS "quick_task").getD "")

/-- `get_temperature` (`ai_config.py`): `TEMPERATURES.get(feature, 0.7)`. -/
def get_temperature (feature : String) : Rat :=
  (assocGet TEMPERATURES feature).getD 0.7

/-- `get_max_tokens` (`ai_config.py`): `MAX_TOKENS.get(feature, 300)`. -/
def get_max_tokens (feature : String) : Nat :=
  (assocGet MAX_TOKENS feature).getD 300

/-- `get_system_message` (`ai_config.py`):
`DEFAULT_SYSTEM_MESSAGES.get(feature, DEFAULT_SYSTEM_MESSAGES["quick_task"])`. -/
def get_system_message (feature : String) : String :=
  (assocGet DEFAULT_SYSTEM_MESSAGES feature).getD
    ((assocGet DEFAULT_SYSTEM_MESSAGES "quick_task").getD "")

/-- `get_language_instruction` (`ai_config.py`):
`LANGUAGES.get(language_code, LANGUAGES["en"])["ai_instruction"]`. -/
def get_language_instruction (language_code : String) : String :=
  ((assocGet LANGUAGES language_code).getD
    ((assocGet LANGUAGES "en").getD default)).ai_instruction

/-- `get_language_code` (`ai_config.py`): `mapping.get(language_name, "en")`. -/
def get_language_code (language_name : String) : String :=
  (assocGet [("English", "en"),
             ("Deutsch", "de"),
             ("العربية (Arabic)", "ar"),
             ("Français", "fr")] language_name).getD "en"

/-- `get_language_code` applied to an arbitrary dict value (`d.get(...)` may
return any type).  A hashable non-string key misses every string key of the
mapping and yields the default `"en"`; an unhashable value (list/dict) makes
`mapping.get` raise `TypeError`. -/
def languageCodeOfValue : Value → Except String String
  | .str s => .ok (get_language_code s)
  | .list _ => .error "TypeError: unhashable type: list"
  | .dict _ => .error "TypeError: unhashable type: dict"
  | _ => .ok "en"

/-- The value of `d.get("language", "English")` on the dict `d`. -/
def langOf (d : PyDict) : Value := (assocGet d "language").getD (.str "English")

/-- The configuration dict built by `get_ai_config` (`ai_config.py`).
`system_message` holds a `Value` because a personalized override taken from
the profile dict may be of any type. -/
structure AIConfig where
  model : String
  temperature : Rat
  max_tokens : Nat
  system_message : Value
deriving Repr

/-- `get_ai_config` (`ai_config.py`).  The `Except` error models an uncaught
exception: `AttributeError` when `profile["onboarding_data"]` is not a dict
(`.get` on it fails), `TypeError` when the language name is unhashable or
when `+=` is applied to a system message that is neither a string nor a
list.  A list-valued message survives `+=`: Python `list += str` extends
the list with the appended string, one single-character string per
character. -/
def get_ai_config (feature : String) (user_profile : Option PyDict) :
    Except String AIConfig :=
  let model := get_model feature
  let temperature := get_temperature feature
  let max_tokens := get_max_tokens feature
  let truthy : Bool :=
    match user_profile with
    | none => false
    | some p => !p.isEmpty
  let base : Value :=
    match user_profile with
    | some p =>
      if truthy then
        match assocGet p ("system_message_" ++ feature) with
        | some v => v
        | none => .str (get_system_message feature)
      else .str (get_system_message feature)
    | none => .str (get_system_message feature)
  let appended : Except String Value :=
    match user_profile with
    | some p =>
      if truthy then
        match assocGet p "onboarding_data" with
        | some (.dict od) =>
          match languageCodeOfValue (langOf od) with
          | .error e => .error e
          | .ok language_code =>
            match base with
            | .str s =>
              .ok (.str (s ++ ("\n\nIMPORTANT: " ++ get_language_instruction language_code)))
            | .list xs =>
              .ok (.list (xs ++
                ("\n\nIMPORTANT: " ++ get_language_instruction language_code).data.map
                  (fun ch => Value.str (String.mk [ch]))))
            | _ => .error "TypeError: unsupported operand types"
        | some _ => .error "AttributeError: object has no attribute get"
        | none => .ok base
      else .ok base
    | none => .ok base
  match appended with
  | .error e => .error e
  | .ok m =>
    .ok { model := model, temperature := temperature,
          max_tokens := max_tokens, system_message := m }

/-! ## `onboarding.py` -/

/-- The raw completion text after markdown-fence stripping, classified by the
behavior of the external JSON library on it: either text that `json.loads`
rejects, or text that parses to a JSON value. -/
inductive RawContent where
  | nonJson (s : String)
  | jsonOf (v : Value)

/-- Model of `json.loads` (external library) on classified content. -/
def pyJsonLoads : RawContent → Option Value
  | .nonJson _ => none
  | .jsonOf v => some v

/-- Behavior of the external completion capability: the call either raises
some exception or returns raw text. -/
inductive CompletionBehavior where
  | raises
  | returns (content : RawContent)

/-- `get_default_profile` (`onboarding.py`).  `now` models
`datetime.now().isoformat()`.  The error path models the uncaught
`TypeError` raised by `get_language_code` on an unhashable language value or
by `", ".join(goals)` on a list with non-string items. -/
def get_default_profile (onboarding_data : PyDict) (now : String) :
    Except String PyDict :=
  match languageCodeOfValue (langOf onboarding_data) with
  | .error e => .error e
  | .ok language_code =>
    let role := (assocGet onboarding_data "role").getD (.str "individual")
    let goals := (assocGet onboarding_data "goals").getD (.list [])
    match goalsText goals with
    | .error e => .error e
    | .ok gtext =>
      .ok [("system_message_daily_planning", .str
              ("You are a productivity coach for a " ++ pyStr role ++ ".\n        \nFocus on these goals: "
                ++ gtext
                ++ ".\n\nProvide:\n- Realistic time-blocked schedules\n- Practical, actionable advice\n- Encouragement and support\n- Clear structure with specific times")),
           ("system_message_weekly_review", .str
              "You are a reflective productivity coach.\n\nProvide:\n- Celebration of wins\n- Pattern identification\n- Constructive suggestions\n- Encouragement for next week"),
           ("coaching_tone", .str "encouraging, practical"),
           ("key_focus_areas",
              match goals with
              | .list xs => .list (xs.take 3)
              | _ => .list [.str "productivity", .str "balance", .str "growth"]),
           ("time_block_size", .int 30),
           ("islamic_emphasis", .str "medium"),
           ("onboarding_data", .dict onboarding_data),
           ("created_at", .str now),
           ("language_code", .str language_code),
           ("is_default", .bool true)]

/-- `generate_user_profile` (`onboarding.py`).  The language code and the
goal join for the prompt are computed before the `try` block, so their
`TypeError` propagates; inside the `try`, a raising completion call, text
that fails JSON parsing, and a parsed non-dict (whose item assignment raises
`TypeError`, caught by the blanket `except`) all fall back to
`get_default_profile`; a parsed dict is returned with `onboarding_data`,
`created_at` and `language_code` attached. -/
def generate_user_profile (onboarding_data : PyDict)
    (completion : CompletionBehavior) (now : String) : Except String PyDict :=
  match languageCodeOfValue (langOf onboarding_data) with
  | .error e => .error e
  | .ok language_code =>
    let goals := (assocGet onboarding_data "goals").getD (.list [])
    match goalsText goals with
    | .error e => .error e
    | .ok _gtext =>
      match completion with
      | .raises => get_default_profile onboarding_data now
      | .returns content =>
        match pyJsonLoads content with
        | none => get_default_profile onboarding_data now
        | some (.dict profile) =>
          .ok (setKey (setKey (setKey profile
                "onboarding_data" (.dict onboarding_data))
                "created_at" (.str now))
                "language_code" (.str language_code))
        | some _ => get_default_profile onboarding_data now

/-- `validate_profile` (`onboarding.py`): all six required fields present. -/
def validate_profile (profile : PyDict) : Bool :=
  ["system_message_daily_planning",
   "system_message_weekly_review",
   "coaching_tone",
   "key_focus_areas",
   "time_block_size",
   "onboarding_data"].all (fun f => (assocGet profile f).isSome)

/-! ## `database.py`

The SQLite tables are modelled as in-memory lists of rows plus the
auto-increment counters.  `json.dumps`/`json.loads` round-trip a
serializable dict, so `profile_data` is stored as the dict itself.
Timestamps are abstract `Nat` clock values supplied by the caller
(`datetime.now().isoformat()`); `ORDER BY created_at DESC LIMIT 1` is
modelled as picking a row of maximal `created_at`. -/

/-- A row of the `user_profiles` table. -/
structure ProfileRow where
  id : Nat
  profile_data : PyDict
  created_at : Nat
  updated_at : Nat
  is_active : Bool
deriving Repr

/-- A row of the `daily_plans` table. -/
structure PlanRow where
  id : Nat
  user_id : Int
  date : String
  plan_content : String
  available_hours : Rat
  created_at : Nat
deriving Repr

/-- A row of the `weekly_reviews` table. -/
structure ReviewRow where
  id : Nat
  user_id : Int
  week_start : String
  week_end : String
  review_content : String
  created_at : Nat
deriving Repr

/-- The persistent store: the three row tables and their auto-increment
counters (SQLite assigns ids 1, 2, ...). -/
structure DBState where
  profiles : List ProfileRow
  plans : List PlanRow
  reviews : List ReviewRow
  nextProfileId : Nat
  nextPlanId : Nat
  nextReviewId : Nat
deriving Repr

/-- The freshly initialized database (`init_database`): empty tables. -/
def initState : DBState :=
  { profiles := [], plans := [], reviews := [],
    nextProfileId := 1, nextPlanId := 1, nextReviewId := 1 }

/-- `UPDATE user_profiles SET is_active = 0 WHERE is_active = 1`. -/
def deactivateAll (rows : List ProfileRow) : List ProfileRow :=
  rows.map (fun r => if r.is_active then { r with is_active := false } else r)

/-- `save_user_profile` (`database.py`): deactivate every active profile,
then insert the new one as active; returns the new row id. -/
def save_user_profile (s : DBState) (now : Nat) (profile_data : PyDict) :
    DBState × Nat :=
  let newRow : ProfileRow :=
    { id := s.nextProfileId, profile_data := profile_data,
      created_at := now, updated_at := now, is_active := true }
  ({ s with profiles := deactivateAll s.profiles ++ [newRow],
            nextProfileId := s.nextProfileId + 1 },
   s.nextProfileId)

/-- `ORDER BY created_at DESC LIMIT 1` over profile rows: a row of maximal
`created_at` (the first such row when several tie). -/
def maxByCreatedProfile (rows : List ProfileRow) : Option ProfileRow :=
  rows.foldl (fun best r =>
    match best with
    | none => some r
    | some b => if b.created_at < r.created_at then some r else some b) none

/-- `get_active_user_profile` (`database.py`): the most recently created
active row, with `db_id`, `db_created_at`, `db_updated_at` attached to the
decoded profile dict. -/
def get_active_user_profile (s : DBState) : Option PyDict :=
  match maxByCreatedProfile (s.profiles.filter (fun r => r.is_active)) with
  | none => none
  | some r =>
    some (setKey (setKey (setKey r.profile_data
            "db_id" (.int r.id))
            "db_created_at" (.int r.created_at))
            "db_updated_at" (.int r.updated_at))

/-- `update_user_profile` (`database.py`): rewrite `profile_data` and
`updated_at` of the row with the given id; `rowcount > 0` reports whether
any row matched. -/
def update_user_profile (s : DBState) (now : Nat) (user_id : Nat)
    (profile_data : PyDict) : DBState × Bool :=
  let success := s.profiles.any (fun r => r.id == user_id)
  ({ s with profiles := s.profiles.map (fun r =>
      if r.id = user_id
      then { r with profile_data := profile_data, updated_at := now }
      else r) },
   success)

/-- `save_daily_plan` (`database.py`): plain insert, returns the new id. -/
def save_daily_plan (s : DBState) (now : Nat) (user_id : Int) (date : String)
    (plan_content : String) (available_hours : Rat) : DBState × Nat :=
  let row : PlanRow :=
    { id := s.nextPlanId, user_id := user_id, date := date,
      plan_content := plan_content, available_hours := available_hours,
      created_at := now }
  ({ s with plans := s.plans ++ [row], nextPlanId := s.nextPlanId + 1 },
   s.nextPlanId)

/-- The dict returned by `get_daily_plan`. -/
structure PlanResult where
  id : Nat
  plan_content : String
  available_hours : Rat
  created_at : Nat
  date : String
deriving Repr

/-- `WHERE user_id = ? AND date = ?` on a plan row. -/
def planMatches (user_id : Int) (date : String) (r : PlanRow) : Bool :=
  r.user_id == user_id && r.date == date

/-- `ORDER BY created_at DESC LIMIT 1` over plan rows. -/
def maxByCreatedPlan (rows : List PlanRow) : Option PlanRow :=
  rows.foldl (fun best r =>
    match best with
    | none => some r
    | some b => if b.created_at < r.created_at then some r else some b) none

/-- `get_daily_plan` (`database.py`): the most recently created row matching
(user, date), or `none`. -/
def get_daily_plan (s : DBState) (user_id : Int) (date : String) :
    Option PlanResult :=
  match maxByCreatedPlan (s.plans.filter (planMatches user_id date)) with
  | none => none
  | some r =>
    some { id := r.id, plan_content := r.plan_content,
           available_hours := r.available_hours,
           created_at := r.created_at, date := date }

/-- `save_weekly_review` (`database.py`): plain insert, returns the new id. -/
def save_weekly_review (s : DBState) (now : Nat) (user_id : Int)
    (week_start week_end review_content : String) : DBState × Nat :=
  let row : ReviewRow :=
    { id := s.nextReviewId, user_id := user_id, week_start := week_start,
      week_end := week_end, review_content := review_content,
      created_at := now }
  ({ s with reviews := s.reviews ++ [row],
            nextReviewId := s.nextReviewId + 1 },
   s.nextReviewId)

/-- One mutating store operation, with the wall-clock value it observed. -/
inductive DBOp where
  | saveProfile (now : Nat) (pd : PyDict)
  | updateProfile (now : Nat) (uid : Nat) (pd : PyDict)
  | savePlan (now : Nat) (uid : Int) (date plan_content : String) (hours : Rat)
  | saveReview (now : Nat) (uid : Int) (week_start week_end content : String)
  | reset

/-- Apply one store operation. -/
def applyOp (s : DBState) : DBOp → DBState
  | .saveProfile now pd => (save_user_profile s now pd).1
  | .updateProfile now uid pd => (update_user_profile s now uid pd).1
  | .savePlan now uid date c hrs => (save_daily_plan s now uid date c hrs).1
  | .saveReview now uid ws we c => (save_weekly_review s now uid ws we c).1
  | .reset => initState

/-- Run a sequence of store operations from the initialized database. -/
def runOps (ops : List DBOp) : DBState := ops.foldl applyOp initState

/-- Number of rows with `is_active` set. -/
def activeProfileCount (s : DBState) : Nat :=
  (s.profiles.filter (fun r => r.is_active)).length

/-! ## Helper lemmas -/

/-- A successful association lookup means the dict is non-empty. -/
theorem assocGet_isEmpty_false {α : Type} {p : List (String × α)} {k : String}
    {v : α} (h : assocGet p k = some v) : p.isEmpty = false := by
  cases p with
  | nil => simp [assocGet] at h
  | cons a t => rfl

/-- `Except.isOk` written out, to state totality claims on `Bool`. -/
def exceptIsOk {ε α : Type} : Except ε α → Bool
  | .ok _ => true
  | .error _ => false

/-! ## Claim C3 -/

/-- C3, as stated, is false: the configuration resolved for an unknown
feature uses the dict-`get` defaults `0.7` and `300` for temperature and
max tokens, which differ from the `quick_task` entry values `0.5` and
`150`. -/
theorem C3_counterexample :
    (get_ai_config "unknown_feature_xyz" none).map AIConfig.temperature
      = .ok (0.7 : Rat)
  ∧ (get_ai_config "quick_task" none).map AIConfig.temperature
      = .ok (0.5 : Rat)
  ∧ (get_ai_config "unknown_feature_xyz" none).map AIConfig.max_tokens = .ok 300
  ∧ (get_ai_config "quick_task" none).map AIConfig.max_tokens = .ok 150
  ∧ (0.7 : Rat) ≠ (0.5 : Rat) ∧ (300 : Nat) ≠ 150 := by
  refine ⟨rfl, rfl, rfl, rfl, by norm_num, by norm_num⟩

/-- C3 amended: for a feature name absent from every catalog table, the
resolved configuration matches `quick_task` in model and system
instruction, but temperature falls back to `0.7` and max tokens to `300`
(the literal `dict.get` defaults), not to the `quick_task` values. -/
theorem C3_unknown_feature (f : String)
    (hm : assocGet MODELS f = none)
    (ht : assocGet TEMPERATURES f = none)
    (hk : assocGet MAX_TOKENS f = none)
    (hs : assocGet DEFAULT_SYSTEM_MESSAGES f = none) :
    (get_ai_config f none).map AIConfig.model
      = (get_ai_config "quick_task" none).map AIConfig.model
  ∧ (get_ai_config f none).map AIConfig.system_message
      = (get_ai_config "quick_task" none).map AIConfig.system_message
  ∧ (get_ai_config f none).map AIConfig.temperature = .ok (0.7 : Rat)
  ∧ (get_ai_config f none).map AIConfig.max_tokens = .ok 300 := by
  simp only [get_ai_config, get_model, get_temperature, get_max_tokens,
    get_system_message, hm, ht, hk, hs]
  refine ⟨rfl, rfl, rfl, rfl⟩

/-- Witness for `C3_unknown_feature` at the concrete unknown name. -/
theorem C3_unknown_feature_witness :
    (get_ai_config "unknown_feature_xyz" none).map AIConfig.model
      = (get_ai_config "quick_task" none).map AIConfig.model
  ∧ (get_ai_config "unknown_feature_xyz" none).map AIConfig.system_message
      = (get_ai_config "quick_task" none).map AIConfig.system_message
  ∧ (get_ai_config "unknown_feature_xyz" none).map AIConfig.temperature
      = .ok (0.7 : Rat)
  ∧ (get_ai_config "unknown_feature_xyz" none).map AIConfig.max_tokens
      = .ok 300 :=
  C3_unknown_feature "unknown_feature_xyz" rfl rfl rfl rfl

/-! ## Claim C4 -/

/-- C4, as stated, is false: with no profile supplied, `get_ai_config`
returns the catalog default instruction verbatim, which does not end in the
base-language directive "Respond in English.". -/
theorem C4_counterexample :
    get_ai_config "daily_planning" none =
      .ok { model := "llama-3.3-70b-versatile", temperature := 0.4,
            max_tokens := 500,
            system_message := .str (get_system_message "daily_planning") }
  ∧ ¬ ((get_language_instruction "en").data <:+
        (get_system_message "daily_planning").data) := by
  refine ⟨rfl, ?_⟩
  decide

/-- C4 amended: the language directive, resolved from
`onboarding_data["language"]` (not from `profile.language_code`), is
appended exactly when the supplied profile carries an `onboarding_data`
dict: with a string (or absent) per-feature override the resulting
instruction text ends with the directive; a list-valued override is
instead extended element-wise with the directive characters; a non-dict
`onboarding_data` makes resolution raise.  When `onboarding_data` is
absent the instruction is the override if present, else the bare catalog
default, with no directive; likewise the bare default when no profile is
supplied. -/
theorem C4_language_directive :
    (∀ feature p od code cfg,
       assocGet p "onboarding_data" = some (.dict od) →
       languageCodeOfValue (langOf od) = .ok code →
       (∀ w, assocGet p ("system_message_" ++ feature) = some w →
          ∃ t, w = .str t) →
       get_ai_config feature (some p) = .ok cfg →
       ∃ m, cfg.system_message = .str m ∧
         (get_language_instruction code).data <:+ m.data)
  ∧ (∀ feature p od code xs,
       assocGet p "onboarding_data" = some (.dict od) →
       languageCodeOfValue (langOf od) = .ok code →
       assocGet p ("system_message_" ++ feature) = some (.list xs) →
       get_ai_config feature (some p) =
         .ok { model := get_model feature,
               temperature := get_temperature feature,
               max_tokens := get_max_tokens feature,
               system_message := .list (xs ++
                 ("\n\nIMPORTANT: " ++ get_language_instruction code).data.map
                   (fun ch => Value.str (String.mk [ch]))) })
  ∧ (∀ feature p,
       assocGet p "onboarding_data" = none →
       get_ai_config feature (some p) =
         .ok { model := get_model feature,
               temperature := get_temperature feature,
               max_tokens := get_max_tokens feature,
               system_message :=
                 match assocGet p ("system_message_" ++ feature) with
                 | some v => v
                 | none => .str (get_system_message feature) })
  ∧ (∀ feature p v,
       assocGet p "onboarding_data" = some v →
       (∀ od, v ≠ .dict od) →
       exceptIsOk (get_ai_config feature (some p)) = false)
  ∧ (∀ feature, get_ai_config feature none =
       .ok { model := get_model feature, temperature := get_temperature feature,
             max_tokens := get_max_tokens feature,
             system_message := .str (get_system_message feature) }) := by
  refine ⟨?_, ?_, ?_, ?_, fun feature => rfl⟩
  · intro feature p od code cfg hod hcode hover hcfg
    have hne : p.isEmpty = false := assocGet_isEmpty_false hod
    simp only [get_ai_config, hne, hod, hcode, Bool.not_false, if_true] at hcfg
    cases hov : assocGet p ("system_message_" ++ feature) with
    | none =>
      rw [hov] at hcfg
      cases hcfg
      refine ⟨_, rfl, ?_⟩
      exact ⟨(get_system_message feature).data ++ "\n\nIMPORTANT: ".data,
        by simp [String.data_append, List.append_assoc]⟩
    | some w =>
      obtain ⟨t, ht⟩ := hover w hov
      subst ht
      rw [hov] at hcfg
      cases hcfg
      refine ⟨_, rfl, ?_⟩
      exact ⟨t.data ++ "\n\nIMPORTANT: ".data,
        by simp [String.data_append, List.append_assoc]⟩
  · intro feature p od code xs hod hcode hov
    have hne : p.isEmpty = false := assocGet_isEmpty_false hod
    simp only [get_ai_config, hne, hod, hcode, hov, Bool.not_false, if_true]
  · intro feature p hod
    cases hne : p.isEmpty with
    | true =>
      cases p with
      | nil => rfl
      | cons a t => simp at hne
    | false =>
      simp only [get_ai_config, hne, hod, Bool.not_false, if_true]
  · intro feature p v hod hv
    have hne : p.isEmpty = false := assocGet_isEmpty_false hod
    simp only [get_ai_config, hne, hod, Bool.not_false, if_true]
    cases v with
    | dict od => exact absurd rfl (hv od)
    | null => rfl
    | bool b => rfl
    | int n => rfl
    | rat q => rfl
    | str t => rfl
    | list xs => rfl

/-- A profile dict with a daily-planning override and German onboarding
answers, used by concrete witnesses. -/
def profileDE : PyDict :=
  [("system_message_daily_planning", .str "Coach for busy parents."),
   ("onboarding_data", .dict [("language", .str "Deutsch")])]

/-- The configuration resolved for `profileDE`. -/
def cfgDE : AIConfig :=
  (get_ai_config "daily_planning" (some profileDE)).toOption.getD
    { model := "", temperature := 0, max_tokens := 0, system_message := .null }

/-- Witness for `C4_language_directive`: the German profile gets the German
directive appended to its override, and a profile without
`onboarding_data` keeps its override verbatim. -/
theorem C4_language_directive_witness :
    (∃ m, cfgDE.system_message = .str m ∧
       (get_language_instruction "de").data <:+ m.data)
  ∧ get_ai_config "quick_task"
        (some [("system_message_quick_task", .str "Short answers.")]) =
      .ok { model := get_model "quick_task",
            temperature := get_temperature "quick_task",
            max_tokens := get_max_tokens "quick_task",
            system_message := .str "Short answers." } := by
  constructor
  · exact C4_language_directive.1 "daily_planning" profileDE
      [("language", .str "Deutsch")] "de" cfgDE rfl rfl
      (fun w hw => ⟨"Coach for busy parents.", (Option.some.inj hw).symm⟩) rfl
  · exact C4_language_directive.2.2.1 "quick_task"
      [("system_message_quick_task", .str "Short answers.")] rfl

/-! ## Claim C7 -/

/-- C7, as stated, is false: a malformed profile whose `onboarding_data` is
not a dict makes `get_ai_config` raise (`profile["onboarding_data"].get`
fails with `AttributeError`). -/
theorem C7_counterexample :
    get_ai_config "daily_planning" (some [("onboarding_data", .int 5)]) =
      .error "AttributeError: object has no attribute get" := rfl

/-- C7 amended: `get_ai_config` never raises without a profile, and never
raises with a profile whose `onboarding_data`, when present, is a dict with
a hashable language value and whose per-feature override, when present, is
a string; a profile outside these shapes can raise. -/
theorem C7_totality :
    (∀ feature, exceptIsOk (get_ai_config feature none) = true)
  ∧ (∀ feature p,
       (∀ v, assocGet p "onboarding_data" = some v →
          ∃ od, v = .dict od
            ∧ exceptIsOk (languageCodeOfValue (langOf od)) = true
            ∧ (∀ w, assocGet p ("system_message_" ++ feature) = some w →
                 ∃ s, w = .str s)) →
       exceptIsOk (get_ai_config feature (some p)) = true) := by
  constructor
  · intro feature
    rfl
  · intro feature p hp
    cases hne : p.isEmpty with
    | true =>
      simp only [get_ai_config, hne]
      rfl
    | false =>
      simp only [get_ai_config, hne, Bool.not_false, if_true]
      cases hod : assocGet p "onboarding_data" with
      | none => rfl
      | some v =>
        obtain ⟨od, hv, hlang, hover⟩ := hp v hod
        subst hv
        cases hcode : languageCodeOfValue (langOf od) with
        | error e => rw [hcode] at hlang; simp [exceptIsOk] at hlang
        | ok code =>
          simp only [hcode]
          cases hov : assocGet p ("system_message_" ++ feature) with
          | none => rfl
          | some w =>
            obtain ⟨s, hw⟩ := hover w hov
            subst hw
            rfl

/-- Witness for `C7_totality` at a concrete feature and well-shaped
profile. -/
theorem C7_totality_witness :
    exceptIsOk (get_ai_config "weekly_review" none) = true
  ∧ exceptIsOk (get_ai_config "daily_planning" (some profileDE)) = true := by
  refine ⟨C7_totality.1 "weekly_review", ?_⟩
  refine C7_totality.2 "daily_planning" profileDE ?_
  intro v hv
  refine ⟨[("language", .str "Deutsch")], ?_, rfl, ?_⟩
  · exact (Option.some.inj hv).symm
  · intro w hw
    exact ⟨"Coach for busy parents.", (Option.some.inj hw).symm⟩

/-! ## Claim C8 -/

/-- C8: when the profile carries a `system_message_daily_planning` override
string, the resolved system instruction starts with that override text;
when no override key is present, it starts with (and, absent
`onboarding_data`, equals) the catalog default instruction. -/
theorem C8_override_instruction :
    (∀ p s cfg,
       assocGet p "system_message_daily_planning" = some (.str s) →
       get_ai_config "daily_planning" (some p) = .ok cfg →
       ∃ m, cfg.system_message = .str m ∧ s.data <+: m.data)
  ∧ (∀ p cfg,
       assocGet p "system_message_daily_planning" = none →
       get_ai_config "daily_planning" (some p) = .ok cfg →
       ∃ m, cfg.system_message = .str m ∧
         (get_system_message "daily_planning").data <+: m.data) := by
  constructor
  · intro p s cfg hov hcfg
    have hne : p.isEmpty = false := assocGet_isEmpty_false hov
    have hov₂ : assocGet p ("system_message_" ++ "daily_planning")
        = some (.str s) := hov
    simp only [get_ai_config, hne, Bool.not_false, if_true, hov₂] at hcfg
    cases hod : assocGet p "onboarding_data" with
    | none =>
      rw [hod] at hcfg
      cases hcfg
      exact ⟨s, rfl, [], by simp⟩
    | some v =>
      rw [hod] at hcfg
      cases v with
      | dict od =>
        cases hcode : languageCodeOfValue (langOf od) with
        | error e => simp only [hcode] at hcfg; cases hcfg
        | ok code =>
          simp only [hcode] at hcfg
          cases hcfg
          refine ⟨_, rfl, ?_⟩
          exact ⟨("\n\nIMPORTANT: " ++ get_language_instruction code).data,
            by simp [String.data_append]⟩
      | null => cases hcfg
      | bool b => cases hcfg
      | int n => cases hcfg
      | rat q => cases hcfg
      | str t => cases hcfg
      | list xs => cases hcfg
  · intro p cfg hov hcfg
    cases hne : p.isEmpty with
    | true =>
      simp only [get_ai_config, hne] at hcfg
      cases hcfg
      exact ⟨_, rfl, [], by simp⟩
    | false =>
      have hov₂ : assocGet p ("system_message_" ++ "daily_planning") = none := hov
      simp only [get_ai_config, hne, Bool.not_false, if_true, hov₂] at hcfg
      cases hod : assocGet p "onboarding_data" with
      | none =>
        rw [hod] at hcfg
        cases hcfg
        exact ⟨_, rfl, [], by simp⟩
      | some v =>
        rw [hod] at hcfg
        cases v with
        | dict od =>
          cases hcode : languageCodeOfValue (langOf od) with
          | error e => simp only [hcode] at hcfg; cases hcfg
          | ok code =>
            simp only [hcode] at hcfg
            cases hcfg
            refine ⟨_, rfl, ?_⟩
            exact ⟨("\n\nIMPORTANT: " ++ get_language_instruction code).data,
              by simp [String.data_append]⟩
        | null => cases hcfg
        | bool b => cases hcfg
        | int n => cases hcfg
        | rat q => cases hcfg
        | str t => cases hcfg
        | list xs => cases hcfg

/-- Witness for `C8_override_instruction` at the concrete profile. -/
theorem C8_override_instruction_witness :
    ∃ m, cfgDE.system_message = .str m ∧
      ("Coach for busy parents." : String).data <+: m.data :=
  C8_override_instruction.1 profileDE "Coach for busy parents." cfgDE rfl rfl

/-! ## Claim C1 -/

/-- Onboarding answers used by concrete C1 scenarios. -/
def ansEN : PyDict :=
  [("language", .str "English"), ("goals", .list [.str "Focus"])]

/-- A well-formed JSON object that is missing the required
`coaching_tone` key. -/
def jsonMissingTone : Value :=
  .dict [("system_message_daily_planning", .str "Plan the day."),
         ("system_message_weekly_review", .str "Review the week."),
         ("key_focus_areas", .list [.str "Focus"]),
         ("time_block_size", .int 30),
         ("islamic_emphasis", .str "low")]

/-- C1, as stated, is false: a completion returning well-formed JSON that
is missing one required key is returned as-is (metadata attached, no
`is_default` marker, not the default profile), and `validate_profile` is
false on the result. -/
theorem C1_counterexample :
    (generate_user_profile ansEN (.returns (.jsonOf jsonMissingTone)) "T").map
        validate_profile = .ok false
  ∧ (generate_user_profile ansEN (.returns (.jsonOf jsonMissingTone)) "T").map
        (fun p => assocGet p "is_default") = .ok none
  ∧ (get_default_profile ansEN "T").map
        (fun p => assocGet p "is_default") = .ok (some (.bool true)) :=
  ⟨rfl, rfl, rfl⟩

/-- C1 amended: a raising completion and a non-JSON response both yield
exactly the default profile, and the default profile always validates; but
a response parsing to a JSON object is returned with only the three
metadata keys attached and no fallback, even when required keys are
missing, so `validate_profile` can be false on `generate`'s result. -/
theorem C1_fallback (od : PyDict) (now : String) :
    generate_user_profile od .raises now = get_default_profile od now
  ∧ (∀ s, generate_user_profile od (.returns (.nonJson s)) now
        = get_default_profile od now)
  ∧ (get_default_profile od now).map validate_profile
      = (get_default_profile od now).map (fun _ => true)
  ∧ (∀ kvs code,
       languageCodeOfValue (langOf od) = .ok code →
       ∀ g, goalsText ((assocGet od "goals").getD (.list [])) = .ok g →
       generate_user_profile od (.returns (.jsonOf (.dict kvs))) now =
         .ok (setKey (setKey (setKey kvs "onboarding_data" (.dict od))
               "created_at" (.str now)) "language_code" (.str code))) := by
  refine ⟨?_, ?_, ?_, ?_⟩
  · cases hl : languageCodeOfValue (langOf od) with
    | error e => simp [generate_user_profile, get_default_profile, hl]
    | ok code =>
      cases hg : goalsText ((assocGet od "goals").getD (.list [])) with
      | error e => simp [generate_user_profile, get_default_profile, hl, hg]
      | ok g => simp [generate_user_profile, hl, hg]
  · intro s
    cases hl : languageCodeOfValue (langOf od) with
    | error e => simp [generate_user_profile, get_default_profile, hl]
    | ok code =>
      cases hg : goalsText ((assocGet od "goals").getD (.list [])) with
      | error e => simp [generate_user_profile, get_default_profile, hl, hg]
      | ok g => simp [generate_user_profile, pyJsonLoads, hl, hg]
  · cases hl : languageCodeOfValue (langOf od) with
    | error e => simp only [get_default_profile, hl]; rfl
    | ok code =>
      cases hg : goalsText ((assocGet od "goals").getD (.list [])) with
      | error e => simp only [get_default_profile, hl, hg]; rfl
      | ok g => simp only [get_default_profile, hl, hg]; rfl
  · intro kvs code hl g hg
    simp [generate_user_profile, pyJsonLoads, hl, hg]

/-- Witness for `C1_fallback` at concrete answers. -/
theorem C1_fallback_witness :
    generate_user_profile ansEN .raises "T" = get_default_profile ansEN "T"
  ∧ generate_user_profile ansEN (.returns (.jsonOf (.dict []))) "T" =
      .ok (setKey (setKey (setKey [] "onboarding_data" (.dict ansEN))
            "created_at" (.str "T")) "language_code" (.str "en")) :=
  ⟨(C1_fallback ansEN "T").1,
   (C1_fallback ansEN "T").2.2.2 [] "en" rfl "Focus" rfl⟩

/-! ## Claim C5 -/

/-- C5, as stated, is false in its empty-goals clause: with `goals = []`
(a list), `goals[:3]` is `[]`, so `key_focus_areas` is the empty list, not
the fixed 3-item generic list. -/
theorem C5_counterexample :
    (get_default_profile [("goals", Value.list [])] "T").map
        (fun p => assocGet p "key_focus_areas") = .ok (some (.list []))
  ∧ Value.list [] ≠
      Value.list [.str "productivity", .str "balance", .str "growth"] := by
  refine ⟨rfl, ?_⟩
  intro h
  simp at h

/-- The German onboarding answers of the concrete C5 scenario. -/
def ansDE : PyDict :=
  [("language", .str "Deutsch"),
   ("goals", .list [.str "Quran memorization/study", .str "Career development"])]

/-- C5 amended: the default profile sets the fixed tone, block size,
emphasis and `is_default` marker, and `key_focus_areas` is the first three
goals whenever `goals` is a list (even when that leaves fewer than three,
or none); the generic 3-item list is used only when `goals` is not a list.
The concrete German raising scenario holds as claimed. -/
theorem C5_default_profile :
    (∀ od now p, get_default_profile od now = .ok p →
       assocGet p "coaching_tone" = some (.str "encouraging, practical")
     ∧ assocGet p "time_block_size" = some (.int 30)
     ∧ assocGet p "islamic_emphasis" = some (.str "medium")
     ∧ assocGet p "is_default" = some (.bool true)
     ∧ assocGet p "key_focus_areas" = some
         (match (assocGet od "goals").getD (.list []) with
          | .list xs => .list (xs.take 3)
          | _ => .list [.str "productivity", .str "balance", .str "growth"]))
  ∧ ((generate_user_profile ansDE .raises "T").map
        (fun p => assocGet p "is_default") = .ok (some (.bool true))
     ∧ (generate_user_profile ansDE .raises "T").map
        (fun p => assocGet p "language_code") = .ok (some (.str "de"))
     ∧ (generate_user_profile ansDE .raises "T").map
        (fun p => assocGet p "key_focus_areas") =
          .ok (some (.list [.str "Quran memorization/study",
                            .str "Career development"]))) := by
  refine ⟨?_, rfl, rfl, rfl⟩
  intro od now p hp
  cases hl : languageCodeOfValue (langOf od) with
  | error e => rw [get_default_profile, hl] at hp; cases hp
  | ok code =>
    cases hg : goalsText ((assocGet od "goals").getD (.list [])) with
    | error e => rw [get_default_profile, hl] at hp; simp only [hg] at hp; cases hp
    | ok g =>
      rw [get_default_profile, hl] at hp
      simp only [hg] at hp
      cases hp
      exact ⟨rfl, rfl, rfl, rfl, rfl⟩

/-- The default profile produced from empty answers, for the witness. -/
def defaultProfile0 : PyDict := (get_default_profile [] "T").toOption.getD []

/-- Witness for `C5_default_profile` at empty answers. -/
theorem C5_default_profile_witness :
    assocGet defaultProfile0 "coaching_tone" = some (.str "encouraging, practical")
  ∧ assocGet defaultProfile0 "time_block_size" = some (.int 30)
  ∧ assocGet defaultProfile0 "islamic_emphasis" = some (.str "medium")
  ∧ assocGet defaultProfile0 "is_default" = some (.bool true)
  ∧ assocGet defaultProfile0 "key_focus_areas" = some (.list []) :=
  C5_default_profile.1 [] "T" defaultProfile0 rfl

/-! ## Store lemmas -/

/-- After the deactivation `UPDATE`, no row is active. -/
theorem filter_deactivateAll (rows : List ProfileRow) :
    (deactivateAll rows).filter (fun r => r.is_active) = [] := by
  induction rows with
  | nil => rfl
  | cons r t ih =>
    by_cases h : r.is_active <;>
      simp [deactivateAll, List.filter_cons, h] at ih ⊢ <;> exact ih

/-- The active rows after a save are exactly the newly inserted row. -/
theorem active_filter_after_save (s : DBState) (now : Nat) (pd : PyDict) :
    (save_user_profile s now pd).1.profiles.filter (fun r => r.is_active)
      = [{ id := s.nextProfileId, profile_data := pd, created_at := now,
           updated_at := now, is_active := true }] := by
  simp [save_user_profile, List.filter_append, filter_deactivateAll]

/-- Reading the active profile right after a save returns the saved dict
with the database metadata attached. -/
theorem get_active_after_save (s : DBState) (now : Nat) (pd : PyDict) :
    get_active_user_profile (save_user_profile s now pd).1 =
      some (setKey (setKey (setKey pd "db_id" (.int s.nextProfileId))
            "db_created_at" (.int now)) "db_updated_at" (.int now)) := by
  rw [get_active_user_profile, active_filter_after_save]
  rfl

/-- A profile-rewriting map that never touches `is_active` preserves the
number of active rows. -/
theorem filter_length_update (now : Nat) (uid : Nat) (pd : PyDict) :
    ∀ rows : List ProfileRow,
      ((rows.map (fun r => if r.id = uid
          then { r with profile_data := pd, updated_at := now } else r)).filter
        (fun r => r.is_active)).length
      = (rows.filter (fun r => r.is_active)).length := by
  intro rows
  induction rows with
  | nil => rfl
  | cons r t ih =>
    simp only [List.map_cons, List.filter_cons]
    by_cases h : r.id = uid <;>
      by_cases ha : r.is_active = true <;>
      simp [h, ha, ih]

/-- Every store operation keeps at most one profile active. -/
theorem activeCount_applyOp_le (s : DBState) (op : DBOp)
    (h : activeProfileCount s ≤ 1) :
    activeProfileCount (applyOp s op) ≤ 1 := by
  cases op with
  | saveProfile now pd =>
    show activeProfileCount (save_user_profile s now pd).1 ≤ 1
    rw [activeProfileCount, active_filter_after_save]
    exact le_refl 1
  | updateProfile now uid pd =>
    show activeProfileCount (update_user_profile s now uid pd).1 ≤ 1
    simp only [activeProfileCount, update_user_profile]
    rw [filter_length_update]
    exact h
  | savePlan now uid date c hrs => exact h
  | saveReview now uid ws we c => exact h
  | reset => exact Nat.zero_le 1

/-- The single-active invariant holds along any operation sequence. -/
theorem activeCount_foldl_le (ops : List DBOp) :
    ∀ s : DBState, activeProfileCount s ≤ 1 →
      activeProfileCount (ops.foldl applyOp s) ≤ 1 := by
  induction ops with
  | nil => intro s h; exact h
  | cons op t ih =>
    intro s h
    exact ih (applyOp s op) (activeCount_applyOp_le s op h)

/-! ## Claim C2 -/

/-- C2: every reachable store state has at most one active profile; every
save leaves exactly one active; and after two saves the active profile read
back is the second one saved (with its database metadata). -/
theorem C2_single_active :
    (∀ ops, activeProfileCount (runOps ops) ≤ 1)
  ∧ (∀ s now pd, activeProfileCount (save_user_profile s now pd).1 = 1)
  ∧ (∀ s n₁ n₂ p₁ p₂,
       get_active_user_profile
           (save_user_profile (save_user_profile s n₁ p₁).1 n₂ p₂).1 =
         some (setKey (setKey (setKey p₂ "db_id" (.int (s.nextProfileId + 1)))
               "db_created_at" (.int n₂)) "db_updated_at" (.int n₂))) := by
  refine ⟨?_, ?_, ?_⟩
  · intro ops
    exact activeCount_foldl_le ops initState (Nat.zero_le 1)
  · intro s now pd
    rw [activeProfileCount, active_filter_after_save]
    rfl
  · intro s n₁ n₂ p₁ p₂
    exact get_active_after_save (save_user_profile s n₁ p₁).1 n₂ p₂

/-! ## Claim C9 -/

/-- C9: saving a profile and immediately reading the active profile returns
the saved dict extended with `db_id` equal to the returned id and the two
database timestamps. -/
theorem C9_save_roundtrip (s : DBState) (now : Nat) (p : PyDict) :
    get_active_user_profile (save_user_profile s now p).1 =
      some (setKey (setKey (setKey p
            "db_id" (.int (save_user_profile s now p).2))
            "db_created_at" (.int now)) "db_updated_at" (.int now)) :=
  get_active_after_save s now p

/-! ## Claim C10 -/

/-- An update whose id matches no row maps every row to itself. -/
theorem update_map_id (now : Nat) (uid : Nat) (pd : PyDict) :
    ∀ rows : List ProfileRow, (∀ r ∈ rows, r.id ≠ uid) →
      rows.map (fun r => if r.id = uid
        then { r with profile_data := pd, updated_at := now } else r)
        = rows := by
  intro rows
  induction rows with
  | nil => intro _; rfl
  | cons r t ih =>
    intro hno
    simp only [List.map_cons]
    rw [if_neg (hno r (by simp)), ih (fun x hx => hno x (by simp [hx]))]

/-- C10: `update_user_profile` reports success exactly when a row with the
id exists; on a missing id it returns false and leaves the store unchanged;
otherwise it rewrites only `profile_data` and `updated_at` of the matching
row, preserving ids, creation timestamps, activity flags, every other row,
the other tables, and the single-active count. -/
theorem C10_update (s : DBState) (now : Nat) (uid : Nat) (pd : PyDict) :
    ((update_user_profile s now uid pd).2
       = s.profiles.any (fun r => r.id == uid))
  ∧ ((∀ r ∈ s.profiles, r.id ≠ uid) →
       (update_user_profile s now uid pd).2 = false
     ∧ (update_user_profile s now uid pd).1 = s)
  ∧ ((update_user_profile s now uid pd).1.plans = s.plans
     ∧ (update_user_profile s now uid pd).1.reviews = s.reviews
     ∧ (update_user_profile s now uid pd).1.nextProfileId = s.nextProfileId)
  ∧ ((update_user_profile s now uid pd).1.profiles.length
       = s.profiles.length)
  ∧ (∀ (i : Nat) (r r₂ : ProfileRow), s.profiles[i]? = some r →
       (update_user_profile s now uid pd).1.profiles[i]? = some r₂ →
       r₂.id = r.id ∧ r₂.created_at = r.created_at
     ∧ r₂.is_active = r.is_active
     ∧ (r.id ≠ uid → r₂ = r)
     ∧ (r.id = uid → r₂.profile_data = pd ∧ r₂.updated_at = now))
  ∧ activeProfileCount (update_user_profile s now uid pd).1
       = activeProfileCount s := by
  refine ⟨rfl, ?_, ⟨rfl, rfl, rfl⟩, ?_, ?_, ?_⟩
  · intro hno
    constructor
    · show s.profiles.any (fun r => r.id == uid) = false
      rw [List.any_eq_false]
      intro r hr
      simpa using hno r hr
    · show ({ s with profiles := s.profiles.map (fun r => if r.id = uid
          then { r with profile_data := pd, updated_at := now } else r) }
            : DBState) = s
      rw [update_map_id now uid pd s.profiles hno]
  · show (s.profiles.map (fun r => if r.id = uid
        then { r with profile_data := pd, updated_at := now } else r)).length
      = s.profiles.length
    rw [List.length_map]
  · intro i r r₂ h1 h2
    have hmap : (update_user_profile s now uid pd).1.profiles
        = s.profiles.map (fun r =>
            if r.id = uid
            then { r with profile_data := pd, updated_at := now }
            else r) := rfl
    rw [hmap, List.getElem?_map, h1] at h2
    have h3 : (if r.id = uid
        then { r with profile_data := pd, updated_at := now }
        else r) = r₂ := by
      simpa using h2
    by_cases hid : r.id = uid
    · rw [if_pos hid] at h3
      cases h3
      exact ⟨rfl, rfl, rfl, fun hne => absurd hid hne, fun _ => ⟨rfl, rfl⟩⟩
    · rw [if_neg hid] at h3
      cases h3
      exact ⟨rfl, rfl, rfl, fun _ => rfl, fun heq => absurd heq hid⟩
  · show activeProfileCount
        ({ s with profiles := s.profiles.map (fun r => if r.id = uid
            then { r with profile_data := pd, updated_at := now } else r) }
          : DBState)
      = activeProfileCount s
    simp only [activeProfileCount]
    exact filter_length_update now uid pd s.profiles

/-- A store holding exactly one saved profile, for concrete witnesses. -/
def dbOne : DBState := (save_user_profile initState 0 []).1

/-- Witness for `C10_update`: a missing id leaves `dbOne` unchanged, and an
update of the existing row rewrites exactly the data and update time. -/
theorem C10_update_witness :
    ((update_user_profile dbOne 7 2 [("x", .int 1)]).2 = false
     ∧ (update_user_profile dbOne 7 2 [("x", .int 1)]).1 = dbOne)
  ∧ (({ id := 1, profile_data := [("x", .int 1)], created_at := 0,
        updated_at := 7, is_active := true } : ProfileRow).id
        = ({ id := 1, profile_data := [], created_at := 0, updated_at := 0,
             is_active := true } : ProfileRow).id
     ∧ ({ id := 1, profile_data := [("x", .int 1)], created_at := 0,
          updated_at := 7, is_active := true } : ProfileRow).created_at
        = ({ id := 1, profile_data := [], created_at := 0, updated_at := 0,
             is_active := true } : ProfileRow).created_at
     ∧ ({ id := 1, profile_data := [("x", .int 1)], created_at := 0,
          updated_at := 7, is_active := true } : ProfileRow).is_active
        = ({ id := 1, profile_data := [], created_at := 0, updated_at := 0,
             is_active := true } : ProfileRow).is_active
     ∧ (({ id := 1, profile_data := [], created_at := 0, updated_at := 0,
           is_active := true } : ProfileRow).id ≠ 1 →
          ({ id := 1, profile_data := [("x", .int 1)], created_at := 0,
             updated_at := 7, is_active := true } : ProfileRow)
          = { id := 1, profile_data := [], created_at := 0, updated_at := 0,
              is_active := true })
     ∧ (({ id := 1, profile_data := [], created_at := 0, updated_at := 0,
           is_active := true } : ProfileRow).id = 1 →
          ({ id := 1, profile_data := [("x", .int 1)], created_at := 0,
             updated_at := 7, is_active := true } : ProfileRow).profile_data
              = [("x", .int 1)]
          ∧ ({ id := 1, profile_data := [("x", .int 1)], created_at := 0,
               updated_at := 7, is_active := true } : ProfileRow).updated_at
              = 7)) := by
  constructor
  · refine (C10_update dbOne 7 2 [("x", .int 1)]).2.1 ?_
    intro r hr
    have : r = { id := 1, profile_data := [], created_at := 0,
                 updated_at := 0, is_active := true } := by
      simpa [dbOne, save_user_profile, initState, deactivateAll] using hr
    rw [this]
    decide
  · exact (C10_update dbOne 7 1 [("x", .int 1)]).2.2.2.2.1 0 _ _ rfl rfl

/-! ## Claim C6 -/

/-- Plan rows listed in strictly increasing creation order (the model of
insertion under a strictly monotone wall clock). -/
def PlansChrono (s : DBState) : Prop :=
  s.plans.Pairwise (fun a b => a.created_at < b.created_at)

/-- Folding the max-by-`created_at` step over rows that are all newer than
the accumulator, in increasing order, lands on the last row. -/
theorem maxPlan_foldl (t : List PlanRow) :
    ∀ b : PlanRow,
      t.Pairwise (fun a c => a.created_at < c.created_at) →
      (∀ x ∈ t, b.created_at < x.created_at) →
      t.foldl (fun best r =>
        match best with
        | none => some r
        | some b₂ => if b₂.created_at < r.created_at then some r else some b₂)
        (some b)
      = some (t.getLastD b) := by
  induction t with
  | nil => intro b _ _; rfl
  | cons x t₂ ih =>
    intro b hp hb
    rw [List.pairwise_cons] at hp
    simp only [List.foldl_cons, if_pos (hb x (by simp)), List.getLastD_cons]
    exact ih x hp.2 (fun y hy => hp.1 y hy)

/-- On rows in increasing creation order,
`ORDER BY created_at DESC LIMIT 1` returns the last row. -/
theorem maxByCreatedPlan_eq_getLast? (rows : List PlanRow)
    (h : rows.Pairwise (fun a c => a.created_at < c.created_at)) :
    maxByCreatedPlan rows = rows.getLast? := by
  cases rows with
  | nil => rfl
  | cons a t =>
    rw [List.pairwise_cons] at h
    rw [maxByCreatedPlan, List.foldl_cons]
    rw [show (List.foldl _ (some a) t : Option PlanRow)
        = some (t.getLastD a) from maxPlan_foldl t a h.2 h.1]
    rw [List.getLast?_cons, List.getLastD_eq_getLast?]

/-- Under chronological order, `get_daily_plan` returns the last-inserted
matching row, packaged as the result dict. -/
theorem get_daily_plan_chrono (s : DBState) (uid : Int) (date : String)
    (h : PlansChrono s) :
    get_daily_plan s uid date
      = ((s.plans.filter (planMatches uid date)).getLast?).map
          (fun r => { id := r.id, plan_content := r.plan_content,
                      available_hours := r.available_hours,
                      created_at := r.created_at, date := date }) := by
  rw [get_daily_plan,
    maxByCreatedPlan_eq_getLast? _ (List.Pairwise.filter _ h)]
  cases (s.plans.filter (planMatches uid date)).getLast? with
  | none => rfl
  | some r => rfl

/-- C6: `save_daily_plan` is a pure insert with no uniqueness constraint on
(owner, date); under chronological creation order `get_daily_plan` returns
the most recently created matching plan, or `none` when no row matches; in
particular two saves for the same owner and date leave `get_daily_plan`
returning the second one. -/
theorem C6_daily_plans :
    (∀ s now uid date c q,
       (save_daily_plan s now uid date c q).1.plans
         = s.plans ++ [{ id := s.nextPlanId, user_id := uid, date := date,
                         plan_content := c, available_hours := q,
                         created_at := now }]
     ∧ (save_daily_plan s now uid date c q).1.profiles = s.profiles
     ∧ (save_daily_plan s now uid date c q).1.reviews = s.reviews
     ∧ (save_daily_plan s now uid date c q).2 = s.nextPlanId)
  ∧ (∀ s uid date, PlansChrono s →
       get_daily_plan s uid date
         = ((s.plans.filter (planMatches uid date)).getLast?).map
             (fun r => { id := r.id, plan_content := r.plan_content,
                         available_hours := r.available_hours,
                         created_at := r.created_at, date := date }))
  ∧ (∀ s uid date, s.plans.filter (planMatches uid date) = [] →
       get_daily_plan s uid date = none)
  ∧ (∀ s n₁ n₂ uid date c₁ q₁ c₂ q₂,
       PlansChrono s → (∀ r ∈ s.plans, r.created_at < n₁) → n₁ < n₂ →
       get_daily_plan
           (save_daily_plan (save_daily_plan s n₁ uid date c₁ q₁).1
             n₂ uid date c₂ q₂).1 uid date
         = some { id := s.nextPlanId + 1, plan_content := c₂,
                  available_hours := q₂, created_at := n₂, date := date }) := by
  refine ⟨fun s now uid date c q => ⟨rfl, rfl, rfl, rfl⟩,
    get_daily_plan_chrono, ?_, ?_⟩
  · intro s uid date hfil
    rw [get_daily_plan, hfil]
    rfl
  · intro s n₁ n₂ uid date c₁ q₁ c₂ q₂ hp hlt hlt₂
    set row₁ : PlanRow :=
      { id := s.nextPlanId, user_id := uid, date := date,
        plan_content := c₁, available_hours := q₁, created_at := n₁ }
      with hrow₁
    set row₂ : PlanRow :=
      { id := s.nextPlanId + 1, user_id := uid, date := date,
        plan_content := c₂, available_hours := q₂, created_at := n₂ }
      with hrow₂
    have hplans : (save_daily_plan (save_daily_plan s n₁ uid date c₁ q₁).1
        n₂ uid date c₂ q₂).1.plans = (s.plans ++ [row₁]) ++ [row₂] := rfl
    have hmatch₁ : planMatches uid date row₁ = true := by
      simp [planMatches, hrow₁]
    have hmatch₂ : planMatches uid date row₂ = true := by
      simp [planMatches, hrow₂]
    have hchrono : ((s.plans ++ [row₁]) ++ [row₂]).Pairwise
        (fun a b => a.created_at < b.created_at) := by
      rw [List.pairwise_append]
      refine ⟨?_, List.pairwise_singleton _ _, ?_⟩
      · rw [List.pairwise_append]
        refine ⟨hp, List.pairwise_singleton _ _, ?_⟩
        intro a ha b hb
        rw [List.mem_singleton] at hb
        rw [hb, hrow₁]
        exact hlt a ha
      · intro a ha b hb
        rw [List.mem_singleton] at hb
        rw [hb, hrow₂]
        rcases List.mem_append.mp ha with h₁ | h₂
        · exact lt_trans (hlt a h₁) hlt₂
        · rw [List.mem_singleton] at h₂
          rw [h₂, hrow₁]
          exact hlt₂
    have hget : get_daily_plan (save_daily_plan
        (save_daily_plan s n₁ uid date c₁ q₁).1 n₂ uid date c₂ q₂).1 uid date
        = ((((s.plans ++ [row₁]) ++ [row₂]).filter
              (planMatches uid date)).getLast?).map
            (fun r => { id := r.id, plan_content := r.plan_content,
                        available_hours := r.available_hours,
                        created_at := r.created_at, date := date }) := by
      have := get_daily_plan_chrono (save_daily_plan
        (save_daily_plan s n₁ uid date c₁ q₁).1 n₂ uid date c₂ q₂).1 uid date
        (by rw [PlansChrono, hplans]; exact hchrono)
      rw [this, hplans]
    rw [hget, List.filter_append, List.filter_append]
    simp only [List.filter_cons, hmatch₁, hmatch₂, List.filter_nil]
    rw [List.append_assoc, List.getLast?_append]
    rfl

/-- Witness for `C6_daily_plans`: two saves for the same owner and date on
a fresh store, then a read returning the second plan. -/
theorem C6_daily_plans_witness :
    get_daily_plan
        (save_daily_plan (save_daily_plan initState 0 1 "2024-12-16" "A" 2).1
          1 1 "2024-12-16" "B" 3).1 1 "2024-12-16"
      = some { id := 2, plan_content := "B", available_hours := 3,
               created_at := 1, date := "2024-12-16" } :=
  C6_daily_plans.2.2.2 initState 0 1 1 "2024-12-16" "A" 2 "B" 3
    (List.Pairwise.nil)
    (fun r hr => absurd hr (List.not_mem_nil r))
    (Nat.lt_succ_self 0)
